import Mathlib

/-!
Verification development for the cluster reconciliation controller
(`pkg/cluster/cluster.go`).  The Go source is shallowly embedded: pure
comparison functions become Lean functions, the stateful lifecycle
operations become functions from an explicit record of step outcomes to the
returned error and the persisted status, and the external collaborators
(control-plane client, block-storage provider, remote execution) are
oracles passed in as function arguments.  Go maps that are only ever
compared with `reflect.DeepEqual` (labels, annotations) are represented by
canonically ordered association lists, so structural equality of the
representation coincides with Go's extensional map equality.  Machine
integers (`int32`/`int64`) are represented by `Int`; the only arithmetic
the source performs on them is equality tests and division by 2^30, which
stays far from overflow, and Go's truncating division is rendered as
`Int.tdiv`.
-/

namespace PgCluster

/-- Lifecycle status values (`spec.PostgresStatus`), as persisted by
`Cluster.setStatus`. -/
inductive PostgresStatus where
  | Creating
  | Running
  | Updating
  | AddFailed
  | UpdateFailed
deriving DecidableEq, Repr

/-- A namespaced object identity (`spec.NamespacedName`).  The Go field
`Namespace` is called `ns` here because `namespace` is a Lean keyword. -/
structure NamespacedName where
  ns : String
  name : String
deriving DecidableEq, Repr

/-- Modelled from the spec: the `String` method of `spec.NamespacedName` is
defined outside the file under analysis; following the ubiquitous
Kubernetes convention for namespaced names (and the spec's "pod identity's
string form") it joins namespace and name with a slash. -/
def NamespacedName.toStr (n : NamespacedName) : String :=
  n.ns ++ "/" ++ n.name

/-- Kind of a pod lifecycle event. -/
inductive PodEventType where
  | add
  | update
  | delete
deriving DecidableEq, Repr

/-- An observed pod lifecycle signal (`spec.PodEvent`): pod identity,
resource version and event kind. -/
structure PodEvent where
  podName : NamespacedName
  resourceVersion : String
  eventType : PodEventType
deriving DecidableEq, Repr

/-- Key function of the pod-event FIFO installed in `New`:
`fmt.Sprintf("%s-%s", e.PodName, e.ResourceVersion)`. -/
def podEventQueueKey (e : PodEvent) : String :=
  e.podName.toStr ++ "-" ++ e.resourceVersion

/-- A database role entry (`spec.PgUser`), with the fields the cluster code
reads and writes: name, password, normalized flags, group memberships. -/
structure PgUser where
  name : String
  password : String
  flags : List String
  memberOf : List String
deriving DecidableEq, Repr

/- ### Resource requirements and the statefulset differ -/

/-- Container resource requirements (`v1.ResourceRequirements`).  A
quantity is represented by its canonical numeric value (the source only
compares quantities with `Quantity.Cmp`); requests and limits are maps from
resource name to quantity, represented as association lists. -/
structure ResourceRequirements where
  requests : List (String × Int)
  limits : List (String × Int)
deriving DecidableEq, Repr

/-- Go map indexing `m[k]` on a quantity map: the stored value, or the zero
quantity when the key is absent. -/
def lookupQuantity (m : List (String × Int)) (k : String) : Int :=
  match m.find? (fun p => p.1 == k) with
  | some p => p.2
  | none => 0

/-- Embedding of `compareResoucesAssumeFirstNotNil` (the source's own
spelling).  `b = none` models a nil pointer. -/
def compareResoucesAssumeFirstNotNil (a : ResourceRequirements)
    (b : Option ResourceRequirements) : Bool :=
  match b with
  | none => a.requests.isEmpty
  | some bv =>
    if bv.requests.isEmpty then a.requests.isEmpty
    else
      a.requests.all (fun p => p.2 == lookupQuantity bv.requests p.1) &&
      a.limits.all (fun p => p.2 == lookupQuantity bv.limits p.1)

/-- Embedding of `compareResources`: `equal` starts true, is refined by the
first comparison when `a` is non-nil, and by the mirrored comparison when
it is still true and `b` is non-nil. -/
def compareResources (a b : Option ResourceRequirements) : Bool :=
  let equal1 : Bool :=
    match a with
    | some av => compareResoucesAssumeFirstNotNil av b
    | none => true
  match b with
  | some bv => if equal1 then compareResoucesAssumeFirstNotNil bv a else equal1
  | none => equal1

/-- A container port (`v1.ContainerPort`); compared by `reflect.DeepEqual`
on the ports slice. -/
structure ContainerPort where
  name : String
  containerPort : Int
  protocol : String
deriving DecidableEq, Repr

/-- An environment entry (`v1.EnvVar`); compared by `reflect.DeepEqual` on
the env slice. -/
structure EnvVar where
  name : String
  value : String
deriving DecidableEq, Repr

/-- The container fields the differ reads. -/
structure Container where
  image : String
  ports : List ContainerPort
  resources : ResourceRequirements
  env : List EnvVar
deriving DecidableEq, Repr

/-- A volume claim template: its name and annotations are compared
field-wise; the rest of its spec is compared atomically with
`reflect.DeepEqual` and is represented by an opaque atom. -/
structure VolumeClaimTemplate where
  name : String
  annotations : List (String × String)
  vctSpec : String
deriving DecidableEq, Repr

/-- The statefulset fields read by `compareStatefulSetWith`
(replica count, pod template fields, containers, volume claim
templates). -/
structure StatefulSetSpec where
  replicas : Int
  serviceAccountName : String
  terminationGracePeriodSeconds : Int
  labels : List (String × String)
  annotations : List (String × String)
  containers : List Container
  volumeClaimTemplates : List VolumeClaimTemplate
deriving DecidableEq, Repr

/-- Result record of the differ (`compareStatefulsetResult`).  The Go field
`match` is a Lean keyword and is called `matchFlag`. -/
structure compareStatefulsetResult where
  matchFlag : Bool
  replace : Bool
  rollingUpdate : Bool
  reasons : List String
deriving DecidableEq, Repr

/-- Mutable flag state threaded through the field checks of the differ. -/
structure DiffState where
  roll : Bool
  replace : Bool
  reasons : List String
deriving DecidableEq, Repr

/-- The volume-claim-template loop of `compareStatefulSetWith`.  The Go
loop runs over the indices of the live list and indexes the desired list
with the same index, so a desired list shorter than the live one is an
out-of-range panic, modelled by `none`.  A name mismatch records a reason
and `continue`s, skipping the annotation and spec checks for that index. -/
def vctLoop : Nat → List VolumeClaimTemplate → List VolumeClaimTemplate →
    DiffState → Option DiffState
  | _, [], _, st => some st
  | _, _ :: _, [], _ => none
  | i, lv :: ls, dv :: ds, st =>
    if lv.name ≠ dv.name then
      vctLoop (i + 1) ls ds
        { st with
          replace := true
          reasons := st.reasons ++
            ["new statefulset's name for volume " ++ toString i ++
             " doesn't match the current one"] }
    else
      let st1 :=
        if lv.annotations ≠ dv.annotations then
          { st with
            replace := true
            reasons := st.reasons ++
              ["new statefulset's annotations for volume " ++ lv.name ++
               " doesn't match the current one"] }
        else st
      let st2 :=
        if lv.vctSpec ≠ dv.vctSpec then
          { st1 with
            replace := true
            reasons := st1.reasons ++
              ["new statefulset's volumeClaimTemplates specification for volume " ++
               lv.name ++ " doesn't match the current one"] }
        else st1
      vctLoop (i + 1) ls ds st2

/-- The field checks of `compareStatefulSetWith` that run after the
zero-container guard: replace-level pod-template fields, the
volume-claim-template loop, and the primary-container fields.  Accessing
the first container of a desired statefulset without containers is a panic,
modelled by `none`. -/
def mainChecks (live desired : StatefulSetSpec) (st0 : DiffState) :
    Option DiffState :=
  let st1 :=
    if live.serviceAccountName ≠ desired.serviceAccountName then
      { roll := true, replace := true,
        reasons := st0.reasons ++
          ["new statefulset's serviceAccountName service asccount name doesn't match the current one"] }
    else st0
  let st2 :=
    if live.terminationGracePeriodSeconds ≠ desired.terminationGracePeriodSeconds then
      { roll := true, replace := true,
        reasons := st1.reasons ++
          ["new statefulset's terminationGracePeriodSeconds  doesn't match the current one"] }
    else st1
  let st3 :=
    if live.labels ≠ desired.labels then
      { roll := true, replace := true,
        reasons := st2.reasons ++
          ["new statefulset's metadata labels doesn't match the current one"] }
    else st2
  let st4 :=
    if live.annotations ≠ desired.annotations then
      { roll := true, replace := true,
        reasons := st3.reasons ++
          ["new statefulset's metadata annotations doesn't match the current one"] }
    else st3
  let st5 :=
    if live.volumeClaimTemplates.length ≠ desired.volumeClaimTemplates.length then
      { st4 with
        replace := true
        reasons := st4.reasons ++
          ["new statefulset's volumeClaimTemplates contains different number of volumes to the old one"] }
    else st4
  match vctLoop 0 live.volumeClaimTemplates desired.volumeClaimTemplates st5 with
  | none => none
  | some st6 =>
    match live.containers, desired.containers with
    | container1 :: _, container2 :: _ =>
      let st7 :=
        if container1.image ≠ container2.image then
          { st6 with
            roll := true
            reasons := st6.reasons ++
              ["new statefulset's container image doesn't match the current one"] }
        else st6
      let st8 :=
        if container1.ports ≠ container2.ports then
          { st7 with
            roll := true
            reasons := st7.reasons ++
              ["new statefulset's container ports don't match the current one"] }
        else st7
      let st9 :=
        if ¬ compareResources (some container1.resources) (some container2.resources) then
          { st8 with
            roll := true
            reasons := st8.reasons ++
              ["new statefulset's container resources don't match the current ones"] }
        else st8
      let stA :=
        if container1.env ≠ container2.env then
          { st9 with
            roll := true
            reasons := st9.reasons ++
              ["new statefulset's container environment doesn't match the current one"] }
        else st9
      some stA
    | _, _ => none

/-- Embedding of `Cluster.compareStatefulSetWith` (live receiver object vs
desired argument).  `match` starts true and is cleared by a replica-count
mismatch; a container-count mismatch sets the rolling-update flag; a live
object with zero containers short-circuits to the zero value of the result
record; otherwise the remaining checks run and `match` is finally cleared
whenever an escalation flag was set. -/
def compareStatefulSetWith (live desired : StatefulSetSpec) :
    Option compareStatefulsetResult :=
  let reasons0 : List String := []
  let m1 : Bool := if live.replicas ≠ desired.replicas then false else true
  let reasons1 :=
    if live.replicas ≠ desired.replicas then
      reasons0 ++ ["new statefulset's number of replicas doesn't match the current one"]
    else reasons0
  let roll1 : Bool :=
    if live.containers.length ≠ desired.containers.length then true else false
  let reasons2 :=
    if live.containers.length ≠ desired.containers.length then
      reasons1 ++ ["new statefulset's container specification doesn't match the current one"]
    else reasons1
  if live.containers.length = 0 then
    some { matchFlag := false, replace := false, rollingUpdate := false, reasons := [] }
  else
    match mainChecks live desired { roll := roll1, replace := false, reasons := reasons2 } with
    | none => none
    | some st =>
      some { matchFlag := if st.roll || st.replace then false else m1,
             replace := st.replace,
             rollingUpdate := st.roll,
             reasons := st.reasons }

/- ### String scanning: substring containment and the resize2fs success pattern -/

/-- Strip an exact literal from the front of a character list, returning
the remainder on success. -/
def stripLit : List Char → List Char → Option (List Char)
  | [], s => some s
  | _ :: _, [] => none
  | p :: ps, c :: cs => if p = c then stripLit ps cs else none

/-- Does `s` start with the literal `pat`? -/
def startsWithLit (pat s : List Char) : Bool :=
  (stripLit pat s).isSome

/-- Substring search scanning every position, the meaning of Go's
`strings.Contains` / an unanchored regexp literal. -/
def containsSub (pat : List Char) : List Char → Bool
  | [] => pat.isEmpty
  | c :: cs => startsWithLit pat (c :: cs) || containsSub pat cs

/-- Embedding of `strings.Contains(s, sub)`. -/
def containsStr (s sub : String) : Bool :=
  containsSub sub.toList s.toList

/-- The character class `[/a-z0-9]` of `ext2fsSuccessRegexp`. -/
def isClassCh (c : Char) : Bool :=
  c = '/' || c.isLower || c.isDigit

/-- The regexp class `\w` (Go `regexp` is ASCII for Perl classes):
letters, digits and underscore. -/
def isWordCh (c : Char) : Bool :=
  c.isAlphanum || c = '_'

/-- Matcher for `ext2fsSuccessRegexp` anchored at the start of `s`:
`The filesystem on [/a-z0-9]+ is now \d+ \(\d+\w+\) blocks long.`
Each repetition class excludes the first character of the literal that
follows it, so the greedy maximal run is the only possible decomposition;
the trailing `.` matches any character other than a newline. -/
def ext2fsMatchAt (s : List Char) : Bool :=
  match stripLit "The filesystem on ".toList s with
  | none => false
  | some r1 =>
    let dev := r1.takeWhile isClassCh
    let r2 := r1.dropWhile isClassCh
    if dev.isEmpty then false
    else
      match stripLit " is now ".toList r2 with
      | none => false
      | some r3 =>
        let num := r3.takeWhile Char.isDigit
        let r4 := r3.dropWhile Char.isDigit
        if num.isEmpty then false
        else
          match stripLit " (".toList r4 with
          | none => false
          | some r5 =>
            let unitRun := r5.takeWhile isWordCh
            let r6 := r5.dropWhile isWordCh
            match unitRun with
            | u0 :: _ :: _ =>
              if u0.isDigit then
                match stripLit ") blocks long".toList r6 with
                | none => false
                | some r7 =>
                  match r7 with
                  | c :: _ => c ≠ '\n'
                  | [] => false
              else false
            | _ => false

/-- Unanchored match of `ext2fsSuccessRegexp`: some suffix position
matches. -/
def ext2fsMatchesList : List Char → Bool
  | [] => ext2fsMatchAt []
  | c :: cs => ext2fsMatchAt (c :: cs) || ext2fsMatchesList cs

/-- Embedding of `ext2fsSuccessRegexp.MatchString`. -/
def ext2fsSuccessMatch (s : String) : Bool :=
  ext2fsMatchesList s.toList

/- ### Volume resize orchestration -/

/-- Embedding of `Cluster.resizeVolumeFS`.  The remote-execution
collaborator is an oracle returning the combined output and the error flag
of `ExecCommand`; a command error is returned as is, the two success
patterns return nil, and anything else is an unrecognized-output error. -/
def resizeVolumeFS (execCommand : NamespacedName → String × Option String)
    (podName : NamespacedName) : Option String :=
  let res := execCommand podName
  match res.2 with
  | some e => some e
  | none =>
    if containsStr res.1 "Nothing to do" ||
       (containsStr res.1 "on-line resizing required" && ext2fsSuccessMatch res.1) then
      none
    else
      some ("unrecognized output: " ++ res.1 ++ ", assuming error")

/-- The fields of a `v1.PersistentVolume` that `updateVolumes` reads:
object name, storage capacity (a quantity, represented by its value in
bytes), the EBS volume ID URI, and the claim reference. -/
structure PersistentVolume where
  name : String
  capacityBytes : Int
  awsVolumeID : String
  claimRefNs : String
  claimRefName : String
deriving DecidableEq, Repr

/-- Modelled from the spec: `constants.DataVolumeName` lives outside the
file under analysis; the spec only says the owning pod name is derived
from the claim reference by stripping the data-volume prefix.  The value
is the conventional name of the data volume. -/
def dataVolumeName : String := "pgdata"

/-- Embedding of `getPodNameFromPersistentVolume`: namespace from the
claim reference, name by stripping `dataVolumeName` plus a separator from
the front of the claim name. -/
def getPodNameFromPersistentVolume (pv : PersistentVolume) : NamespacedName :=
  { ns := pv.claimRefNs
    name := String.mk (pv.claimRefName.toList.drop (dataVolumeName.length + 1)) }

/-- Last position of `pat` in `s` (Go `strings.LastIndex`, with `none` for
the `-1` not-found result). -/
def lastIndexOfSub (pat s : List Char) : Option Nat :=
  ((List.range (s.length + 1)).filter (fun i => startsWithLit pat (s.drop i))).getLast?

/-- Embedding of `getAWSVolumeId`: converts
`aws://eu-central-1b/vol-xxx` to `vol-xxx` by locating the last `/vol-`
marker and taking the suffix after the slash. -/
def getAWSVolumeId (pv : PersistentVolume) : Except String String :=
  let id := pv.awsVolumeID
  if id = "" then .error ("volume id is empty for volume " ++ pv.name)
  else
    let idx : Nat :=
      match lastIndexOfSub "/vol-".toList id.toList with
      | some i => i + 1
      | none => 0
    if idx = 0 then .error ("malfored EBS volume id " ++ id)
    else .ok (String.mk (id.toList.drop idx))

/-- Observable calls into the external collaborators made by the volume
orchestrator, in order: EBS block-device resize, remote filesystem resize
(the `ExecCommand` call inside `resizeVolumeFS`), and the control-plane
update of the persistent-volume record. -/
inductive VolEvent where
  | resizeEBS (volumeId : String) (newSizeGiB : Int)
  | execFS (pod : NamespacedName)
  | updatePV (pvName : String) (newCapacityBytes : Int)
deriving DecidableEq, Repr

/-- Result oracles for the three external collaborators used per volume. -/
structure VolOracles where
  resizeEBSResult : String → Int → Option String
  execCommand : NamespacedName → String × Option String
  updatePVResult : PersistentVolume → Option String

/-- Loop body of `updateVolumes` for one persistent volume: sizes are
compared in whole gibibytes (truncating division of the quantity values by
2^30); an equal size skips the volume entirely; otherwise the EBS device
is resized, then the filesystem via the remote command, and only then is
the persistent-volume record updated to the new quantity.  Returns the
emitted collaborator calls, the persisted record after the iteration, and
the error, if any. -/
def processPV (o : VolOracles) (newQuantityBytes : Int) (pv : PersistentVolume) :
    List VolEvent × PersistentVolume × Option String :=
  let newSize := newQuantityBytes.tdiv 1073741824
  if pv.capacityBytes.tdiv 1073741824 ≠ newSize then
    match getAWSVolumeId pv with
    | .error e => ([], pv, some e)
    | .ok awsVolumeId =>
      match o.resizeEBSResult awsVolumeId newSize with
      | some e =>
        ([.resizeEBS awsVolumeId newSize], pv,
          some ("could not resize EBS volume " ++ awsVolumeId ++ ": " ++ e))
      | none =>
        let podName := getPodNameFromPersistentVolume pv
        match resizeVolumeFS o.execCommand podName with
        | some e =>
          ([.resizeEBS awsVolumeId newSize, .execFS podName], pv,
            some ("could not resize the filesystem on pod '" ++ podName.toStr ++ "': " ++ e))
        | none =>
          let pv2 := { pv with capacityBytes := newQuantityBytes }
          match o.updatePVResult pv2 with
          | some e =>
            ([.resizeEBS awsVolumeId newSize, .execFS podName,
              .updatePV pv.name newQuantityBytes], pv,
              some ("could not update persistent volume: " ++ e))
          | none =>
            ([.resizeEBS awsVolumeId newSize, .execFS podName,
              .updatePV pv.name newQuantityBytes], pv2, none)
  else ([], pv, none)

/-- The per-volume loop of `updateVolumes`: sequential, first failure
aborts the remaining volumes with no rollback. -/
def updateVolumesLoop (o : VolOracles) (newQuantityBytes : Int) :
    List PersistentVolume → List VolEvent × List PersistentVolume × Option String
  | [] => ([], [], none)
  | pv :: rest =>
    let r := processPV o newQuantityBytes pv
    match r.2.2 with
    | some e => (r.1, r.2.1 :: rest, some e)
    | none =>
      let rr := updateVolumesLoop o newQuantityBytes rest
      (r.1 ++ rr.1, r.2.1 :: rr.2.1, rr.2.2)

/-- Embedding of `Cluster.updateVolumes`: list the persistent volumes,
connect to EC2, then run the per-volume loop.  (The error of
`resource.ParseQuantity` is ignored by the source; the parsed quantity
value in bytes is taken as input.) -/
def updateVolumes (o : VolOracles) (connectEC2 : Option String)
    (newQuantityBytes : Int) (listPVs : Except String (List PersistentVolume)) :
    List VolEvent × List PersistentVolume × Option String :=
  match listPVs with
  | .error e => ([], [], some ("could not list persistent volumes: " ++ e))
  | .ok pvs =>
    match connectEC2 with
    | some _ => ([], pvs, some "could not connect to EC2")
    | none => updateVolumesLoop o newQuantityBytes pvs

/- ### Role model builder -/

/-- Modelled from the spec: `isValidUsername` is defined outside the file
under analysis; per the spec an infrastructure/robot username must match a
strict identifier pattern — a leading letter followed by letters and
digits only — which is exactly the source's `alphaNumericRegexp`
`^[a-zA-Z][a-zA-Z0-9]*$`. -/
def isValidUsername (s : String) : Bool :=
  match s.toList with
  | [] => false
  | c :: cs => c.isAlpha && cs.all Char.isAlphanum

/-- The username → `PgUser` map, as an association list with at most one
entry per key (the Go map invariant). -/
abbrev UserMap := List (String × PgUser)

/-- Go map assignment `m[k] = v`: replace the entry for `k` in place if
present, otherwise add one. -/
def mapInsert (m : UserMap) (k : String) (v : PgUser) : UserMap :=
  if m.any (fun p => p.1 == k) then
    m.map (fun p => if p.1 == k then (k, v) else p)
  else m ++ [(k, v)]

/-- Modelled from the spec: `constants.RoleFlagLogin`, outside the file
under analysis. -/
def roleFlagLogin : String := "LOGIN"

/-- Modelled from the spec: `constants.RoleFlagSuperuser`, outside the
file under analysis. -/
def roleFlagSuperuser : String := "SUPERUSER"

/-- Embedding of `Cluster.initInfrastructureRoles`, folding the
operator-supplied roles into `pgUsers`.  `normalizeUserFlags` (defined
outside the file under analysis) is passed as an oracle: it validates and
canonicalizes a flag set or fails.  An invalid username or flag set aborts
the whole build. -/
def initInfrastructureRoles
    (normalizeUserFlags : List String → Except String (List String))
    (infrastructureRoles : List (String × PgUser)) (pgUsers : UserMap) :
    Except String UserMap :=
  match infrastructureRoles with
  | [] => .ok pgUsers
  | (username, data) :: rest =>
    if ¬ isValidUsername username then
      .error ("invalid username: '" ++ username ++ "'")
    else
      match normalizeUserFlags data.flags with
      | .error e => .error ("invalid flags for user '" ++ username ++ "': " ++ e)
      | .ok flags =>
        initInfrastructureRoles normalizeUserFlags rest
          (mapInsert pgUsers username { data with flags := flags })

/-- Embedding of `Cluster.initRobotUsers`, folding the cluster-spec users
into `pgUsers`.  `randomPassword` stands in for `util.RandomPassword`
(one fresh password per user). -/
def initRobotUsers
    (normalizeUserFlags : List String → Except String (List String))
    (randomPassword : String → String)
    (specUsers : List (String × List String)) (pgUsers : UserMap) :
    Except String UserMap :=
  match specUsers with
  | [] => .ok pgUsers
  | (username, userFlags) :: rest =>
    if ¬ isValidUsername username then
      .error ("invalid username: '" ++ username ++ "'")
    else
      match normalizeUserFlags userFlags with
      | .error e => .error ("invalid flags for user '" ++ username ++ "': " ++ e)
      | .ok flags =>
        initRobotUsers normalizeUserFlags randomPassword rest
          (mapInsert pgUsers username
            { name := username, password := randomPassword username
              flags := flags, memberOf := [] })

/-- Embedding of `Cluster.initHumanUsers`: one entry per team member
(`getTeamMembers` result passed as an oracle), each granted login and
superuser plus membership of the PAM role, with no password. -/
def initHumanUsers (pamRoleName : String)
    (teamMembers : Except String (List String)) (pgUsers : UserMap) :
    Except String UserMap :=
  match teamMembers with
  | .error e => .error ("could not get list of team members: " ++ e)
  | .ok members =>
    .ok (members.foldl
      (fun m username =>
        mapInsert m username
          { name := username, password := ""
            flags := [roleFlagLogin, roleFlagSuperuser], memberOf := [pamRoleName] })
      pgUsers)

/-- The `pgUsers` map built by `Cluster.initUsers`: infrastructure roles,
then robot users, then human users, each folded into the same map in that
fixed order (`initSystemUsers` writes a different map and is not part of
`pgUsers`). -/
def initUsersPg
    (normalizeUserFlags : List String → Except String (List String))
    (randomPassword : String → String)
    (infrastructureRoles : List (String × PgUser))
    (specUsers : List (String × List String))
    (pamRoleName : String)
    (teamMembers : Except String (List String)) :
    Except String UserMap :=
  match initInfrastructureRoles normalizeUserFlags infrastructureRoles [] with
  | .error e => .error ("could not init infrastructure roles: " ++ e)
  | .ok m1 =>
    match initRobotUsers normalizeUserFlags randomPassword specUsers m1 with
    | .error e => .error ("could not init robot users: " ++ e)
    | .ok m2 =>
      match initHumanUsers pamRoleName teamMembers m2 with
      | .error e => .error ("could not init human users: " ++ e)
      | .ok m3 => .ok m3

/- ### Lifecycle driver: Create and Update -/

/-- Outcome of each step `Cluster.Create` can invoke, as an oracle record:
`none` is success, `some e` the step's error. -/
structure CreateSteps where
  createEndpointErr : Option String
  createServiceErr : Option String
  initUsersErr : Option String
  applySecretsErr : Option String
  createStatefulSetErr : Option String
  waitPodsReadyErr : Option String
  initDbConnErr : Option String
  createUsersErr : Option String
  listResourcesErr : Option String
deriving DecidableEq, Repr

/-- Embedding of `Cluster.Create`.  Returns the error returned to the
caller and the status persisted by the deferred status writer, which
records `Running` when the function-scope `err` variable is nil at return
and `AddFailed` otherwise.  Two places make the returned error and the
function-scope `err` disagree, and the model reproduces them exactly:
the `initDbConn` failure returns an error assigned with `:=` to a fresh
`err` scoped to the `if` statement, leaving the function-scope `err` nil
(so the deferred writer persists `Running`), and a `ListResources`
failure assigns the function-scope `err` but the function still returns
nil (so the deferred writer persists `AddFailed`). -/
def createRun (masterLess databaseAccessDisabled : Bool) (s : CreateSteps) :
    Option String × PostgresStatus :=
  match s.createEndpointErr with
  | some e => (some ("could not create endpoint: " ++ e), .AddFailed)
  | none =>
    match s.createServiceErr with
    | some e => (some ("could not create service: " ++ e), .AddFailed)
    | none =>
      match s.initUsersErr with
      | some e => (some e, .AddFailed)
      | none =>
        match s.applySecretsErr with
        | some e => (some ("could not create secrets: " ++ e), .AddFailed)
        | none =>
          match s.createStatefulSetErr with
          | some e => (some ("could not create statefulset: " ++ e), .AddFailed)
          | none =>
            match s.waitPodsReadyErr with
            | some e => (some e, .AddFailed)
            | none =>
              if ¬ (masterLess || databaseAccessDisabled) then
                match s.initDbConnErr with
                | some e => (some ("could not init db connection: " ++ e), .Running)
                | none =>
                  match s.createUsersErr with
                  | some e => (some ("could not create users: " ++ e), .AddFailed)
                  | none =>
                    match s.listResourcesErr with
                    | some _ => (none, .AddFailed)
                    | none => (none, .Running)
              else
                match s.listResourcesErr with
                | some _ => (none, .AddFailed)
                | none => (none, .Running)

/-- Outcome of each step `Cluster.Update` can invoke, plus the comparison
results it branches on, as an oracle record. -/
structure UpdateSteps where
  serviceMatch : Bool
  updateServiceErr : Option String
  volumeMatch : Bool
  updateVolumesErr : Option String
  genStatefulSetErr : Option String
  cmpMatch : Bool
  cmpReplace : Bool
  cmpRollingUpdate : Bool
  updateStatefulSetErr : Option String
  replaceStatefulSetErr : Option String
  recreatePodsErr : Option String
deriving DecidableEq, Repr

/-- Embedding of `Cluster.Update`.  Returns the error returned to the
caller and the last status persisted before returning; `Updating` is
written first, explicit `UpdateFailed` writes precede the service-update,
statefulset-update, statefulset-replace and pod-recreation error returns,
while the volume-update and statefulset-generation error returns write no
status (leaving `Updating`), and the success path writes `Running`. -/
def updateRun (s : UpdateSteps) : Option String × PostgresStatus :=
  match (if ¬ s.serviceMatch then s.updateServiceErr else none) with
  | some e => (some ("could not update service: " ++ e), .UpdateFailed)
  | none =>
    match (if ¬ s.volumeMatch then s.updateVolumesErr else none) with
    | some e => (some ("Could not update volumes: " ++ e), .Updating)
    | none =>
      match s.genStatefulSetErr with
      | some e => (some ("could not generate statefulset: " ++ e), .Updating)
      | none =>
        match (if ¬ s.cmpMatch then
                 (if ¬ s.cmpReplace then
                    (s.updateStatefulSetErr.map (fun e => "could not upate statefulset: " ++ e))
                  else
                    (s.replaceStatefulSetErr.map (fun e => "could not replace statefulset: " ++ e)))
               else none) with
        | some e => (some e, .UpdateFailed)
        | none =>
          match (if s.cmpRollingUpdate then s.recreatePodsErr else none) with
          | some e => (some ("could not recreate pods: " ++ e), .UpdateFailed)
          | none => (none, .Running)

/- ### Specification-level predicates used in theorem statements -/

/-- The language of `ext2fsSuccessRegexp` anchored at the start of the
string, written as the regular expression reads: the literal, a nonempty
run over `[/a-z0-9]`, a literal, a nonempty digit run, a literal, a
nonempty digit run followed by a nonempty word-character run in
parentheses, the closing literal, and one arbitrary non-newline character
(the trailing `.`). -/
def Ext2fsAtProp (s : List Char) : Prop :=
  ∃ dev num unitRun c rest,
    s = "The filesystem on ".toList ++ dev ++ " is now ".toList ++ num ++
        " (".toList ++ unitRun ++ ") blocks long".toList ++ c :: rest ∧
    dev ≠ [] ∧ (∀ x ∈ dev, isClassCh x = true) ∧
    num ≠ [] ∧ (∀ x ∈ num, x.isDigit = true) ∧
    (∃ d w, unitRun = d ++ w ∧ d ≠ [] ∧ (∀ x ∈ d, x.isDigit = true) ∧
      w ≠ [] ∧ (∀ x ∈ w, isWordCh x = true)) ∧
    c ≠ '\n'

/-- A Go map represented as an association list has no duplicate keys. -/
def keysNodup (m : List (String × Int)) : Prop :=
  (m.map Prod.fst).Nodup

/- ### Basic lemmas about the string scanners -/

theorem stripLit_eq_some {p s r : List Char} :
    stripLit p s = some r ↔ s = p ++ r := by
  induction p generalizing s with
  | nil => simp [stripLit]
  | cons a ps ih =>
    cases s with
    | nil => simp [stripLit]
    | cons c cs =>
      by_cases h : a = c
      · subst h
        simp [stripLit, ih]
      · simp [stripLit, h, Ne.symm h]

theorem startsWithLit_iff {p s : List Char} :
    startsWithLit p s = true ↔ ∃ r, s = p ++ r := by
  unfold startsWithLit
  rw [Option.isSome_iff_exists]
  exact ⟨fun ⟨r, hr⟩ => ⟨r, stripLit_eq_some.mp hr⟩,
         fun ⟨r, hr⟩ => ⟨r, stripLit_eq_some.mpr hr⟩⟩

theorem containsSub_iff {p s : List Char} :
    containsSub p s = true ↔ ∃ pre post, s = pre ++ p ++ post := by
  induction s with
  | nil =>
    simp only [containsSub, List.isEmpty_iff]
    constructor
    · intro h
      exact ⟨[], [], by simp [h]⟩
    · rintro ⟨pre, post, h⟩
      rcases List.append_eq_nil.mp h.symm with ⟨h1, -⟩
      exact (List.append_eq_nil.mp h1).2
  | cons c cs ih =>
    simp only [containsSub, Bool.or_eq_true, startsWithLit_iff, ih]
    constructor
    · rintro (⟨r, hr⟩ | ⟨pre, post, h⟩)
      · exact ⟨[], r, by simp [hr]⟩
      · exact ⟨c :: pre, post, by simp [h]⟩
    · rintro ⟨pre, post, h⟩
      cases pre with
      | nil =>
        left
        exact ⟨post, by simpa using h⟩
      | cons a pre' =>
        right
        rw [List.cons_append, List.cons_append, List.cons.injEq] at h
        exact ⟨pre', post, h.2⟩

theorem containsStr_iff {s sub : String} :
    containsStr s sub = true ↔ ∃ pre post, s.toList = pre ++ sub.toList ++ post := by
  unfold containsStr
  exact containsSub_iff

theorem takeWhile_append_all {p : Char → Bool} {a b : List Char}
    (ha : ∀ x ∈ a, p x = true) (hb : ∀ c l, b = c :: l → p c = false) :
    (a ++ b).takeWhile p = a ∧ (a ++ b).dropWhile p = b := by
  induction a with
  | nil =>
    cases b with
    | nil => simp
    | cons c l =>
      simp [List.takeWhile, List.dropWhile, hb c l rfl]
  | cons x a' ih =>
    have hx := ha x (by simp)
    have ih' := ih (fun y hy => ha y (by simp [hy]))
    simp [List.takeWhile, List.dropWhile, hx, ih'.1, ih'.2]

theorem mem_takeWhile_pred {p : Char → Bool} {l : List Char} :
    ∀ x ∈ l.takeWhile p, p x = true := by
  induction l with
  | nil => simp
  | cons c cs ih =>
    by_cases h : p c
    · simp only [List.takeWhile, h]
      intro x hx
      rcases List.mem_cons.mp hx with h1 | h2
      · subst h1; exact h
      · exact ih x h2
    · simp [List.takeWhile, h]


theorem stripLit_self_append (p r : List Char) : stripLit p (p ++ r) = some r :=
  stripLit_eq_some.mpr rfl

theorem isWordCh_of_isDigit {c : Char} (h : c.isDigit = true) : isWordCh c = true := by
  simp [isWordCh, Char.isAlphanum, h]

theorem takeWhile_class_stop {X dev : List Char}
    (h : ∀ x ∈ dev, isClassCh x = true) :
    (dev ++ (" is now ".toList ++ X)).takeWhile isClassCh = dev ∧
    (dev ++ (" is now ".toList ++ X)).dropWhile isClassCh = " is now ".toList ++ X := by
  apply takeWhile_append_all h
  intro c l hcl
  have h2 : (' ' : Char) :: ("is now ".toList ++ X) = c :: l := hcl
  injection h2 with hc0 _
  subst hc0
  decide

theorem takeWhile_digit_stop {X num : List Char}
    (h : ∀ x ∈ num, Char.isDigit x = true) :
    (num ++ (" (".toList ++ X)).takeWhile Char.isDigit = num ∧
    (num ++ (" (".toList ++ X)).dropWhile Char.isDigit = " (".toList ++ X := by
  apply takeWhile_append_all h
  intro c l hcl
  have h2 : (' ' : Char) :: ("(".toList ++ X) = c :: l := hcl
  injection h2 with hc0 _
  subst hc0
  decide

theorem takeWhile_word_stop {X u : List Char}
    (h : ∀ x ∈ u, isWordCh x = true) :
    (u ++ (") blocks long".toList ++ X)).takeWhile isWordCh = u ∧
    (u ++ (") blocks long".toList ++ X)).dropWhile isWordCh = ") blocks long".toList ++ X := by
  apply takeWhile_append_all h
  intro c l hcl
  have h2 : (')' : Char) :: (" blocks long".toList ++ X) = c :: l := hcl
  injection h2 with hc0 _
  subst hc0
  decide


theorem takeWhile_word_stop2 {X : List Char} {d w : List Char}
    (hd : ∀ x ∈ d, isWordCh x = true) (hw : ∀ x ∈ w, isWordCh x = true) :
    (d ++ (w ++ (") blocks long".toList ++ X))).takeWhile isWordCh = d ++ w ∧
    (d ++ (w ++ (") blocks long".toList ++ X))).dropWhile isWordCh =
      ") blocks long".toList ++ X := by
  have hu : ∀ x ∈ d ++ w, isWordCh x = true := by
    intro x hx
    rcases List.mem_append.mp hx with h1 | h2
    · exact hd x h1
    · exact hw x h2
  have h := takeWhile_word_stop (u := d ++ w) (X := X) hu
  rw [List.append_assoc] at h
  exact h

theorem ext2fsMatchAt_iff {s : List Char} :
    ext2fsMatchAt s = true ↔ Ext2fsAtProp s := by
  constructor
  · intro h
    rw [ext2fsMatchAt.eq_def] at h
    rcases h1 : stripLit "The filesystem on ".toList s with _ | r1
    · rw [h1] at h; simp at h
    · rw [h1] at h
      simp only [] at h
      by_cases hdevE : (r1.takeWhile isClassCh).isEmpty
      · rw [if_pos hdevE] at h; simp at h
      · rw [if_neg hdevE] at h
        rcases h3 : stripLit " is now ".toList (r1.dropWhile isClassCh) with _ | r3
        · rw [h3] at h; simp at h
        · rw [h3] at h
          simp only [] at h
          by_cases hnumE : (r3.takeWhile Char.isDigit).isEmpty
          · rw [if_pos hnumE] at h; simp at h
          · rw [if_neg hnumE] at h
            rcases h5 : stripLit " (".toList (r3.dropWhile Char.isDigit) with _ | r5
            · rw [h5] at h; simp at h
            · rw [h5] at h
              simp only [] at h
              rcases hunit : r5.takeWhile isWordCh with _ | ⟨u0, _ | ⟨u1, us⟩⟩
              · rw [hunit] at h; simp at h
              · rw [hunit] at h; simp at h
              · rw [hunit] at h
                simp only [] at h
                by_cases hu0 : u0.isDigit
                · rw [if_pos hu0] at h
                  rcases h7 : stripLit ") blocks long".toList (r5.dropWhile isWordCh) with _ | r7
                  · rw [h7] at h; simp at h
                  · rw [h7] at h
                    simp only [] at h
                    rcases hr7 : r7 with _ | ⟨c, rest7⟩
                    · rw [hr7] at h; simp at h
                    · rw [hr7] at h
                      simp only [decide_eq_true_eq] at h
                      refine ⟨r1.takeWhile isClassCh, r3.takeWhile Char.isDigit,
                              r5.takeWhile isWordCh, c, rest7, ?_, ?_,
                              fun x hx => mem_takeWhile_pred x hx, ?_,
                              fun x hx => mem_takeWhile_pred x hx, ?_, h⟩
                      · have e1 := stripLit_eq_some.mp h1
                        have e3 := stripLit_eq_some.mp h3
                        have e5 := stripLit_eq_some.mp h5
                        have e7 := stripLit_eq_some.mp h7
                        calc s = "The filesystem on ".toList ++ r1 := e1
                          _ = "The filesystem on ".toList ++
                              (r1.takeWhile isClassCh ++ r1.dropWhile isClassCh) := by
                                rw [List.takeWhile_append_dropWhile]
                          _ = "The filesystem on ".toList ++
                              (r1.takeWhile isClassCh ++ (" is now ".toList ++ r3)) := by
                                rw [e3]
                          _ = "The filesystem on ".toList ++
                              (r1.takeWhile isClassCh ++ (" is now ".toList ++
                                (r3.takeWhile Char.isDigit ++ r3.dropWhile Char.isDigit))) := by
                                rw [List.takeWhile_append_dropWhile]
                          _ = "The filesystem on ".toList ++
                              (r1.takeWhile isClassCh ++ (" is now ".toList ++
                                (r3.takeWhile Char.isDigit ++ (" (".toList ++ r5)))) := by
                                rw [e5]
                          _ = "The filesystem on ".toList ++
                              (r1.takeWhile isClassCh ++ (" is now ".toList ++
                                (r3.takeWhile Char.isDigit ++ (" (".toList ++
                                  (r5.takeWhile isWordCh ++ r5.dropWhile isWordCh))))) := by
                                rw [List.takeWhile_append_dropWhile]
                          _ = "The filesystem on ".toList ++
                              (r1.takeWhile isClassCh ++ (" is now ".toList ++
                                (r3.takeWhile Char.isDigit ++ (" (".toList ++
                                  (r5.takeWhile isWordCh ++ (") blocks long".toList ++ r7)))))) := by
                                rw [e7]
                          _ = "The filesystem on ".toList ++
                              (r1.takeWhile isClassCh ++ (" is now ".toList ++
                                (r3.takeWhile Char.isDigit ++ (" (".toList ++
                                  (r5.takeWhile isWordCh ++ (") blocks long".toList ++
                                    (c :: rest7))))))) := by
                                rw [hr7]
                          _ = "The filesystem on ".toList ++ r1.takeWhile isClassCh ++
                              " is now ".toList ++ r3.takeWhile Char.isDigit ++
                              " (".toList ++ r5.takeWhile isWordCh ++
                              ") blocks long".toList ++ c :: rest7 := by
                                simp [List.append_assoc]
                      · intro hx
                        rw [hx] at hdevE
                        simp at hdevE
                      · intro hx
                        rw [hx] at hnumE
                        simp at hnumE
                      · refine ⟨[u0], u1 :: us, by rw [hunit]; rfl, by simp, ?_, by simp, ?_⟩
                        · intro x hx
                          rw [List.mem_singleton] at hx
                          subst hx
                          exact hu0
                        · intro x hx
                          have hx2 : x ∈ r5.takeWhile isWordCh := by
                            rw [hunit]
                            exact List.mem_cons_of_mem _ hx
                          exact mem_takeWhile_pred x hx2
                · rw [if_neg hu0] at h; simp at h
  · rintro ⟨dev, num, unitRun, c, rest, hs, hdev, hdevCh, hnum, hnumCh,
            ⟨d, w, hu, hd, hdCh, hw, hwCh⟩, hc⟩
    subst hs
    subst hu
    have hdevE : ¬ (dev.isEmpty = true) := by simpa [List.isEmpty_iff] using hdev
    have hnumE : ¬ (num.isEmpty = true) := by simpa [List.isEmpty_iff] using hnum
    have hwd : ∀ x ∈ d, isWordCh x = true := fun x hx => isWordCh_of_isDigit (hdCh x hx)
    rw [ext2fsMatchAt.eq_def]
    simp only [List.append_assoc]
    rw [stripLit_self_append]
    simp only []
    rw [(takeWhile_class_stop hdevCh).1, (takeWhile_class_stop hdevCh).2]
    rw [if_neg hdevE]
    rw [stripLit_self_append]
    simp only []
    rw [(takeWhile_digit_stop hnumCh).1, (takeWhile_digit_stop hnumCh).2]
    rw [if_neg hnumE]
    rw [stripLit_self_append]
    simp only []
    rw [(takeWhile_word_stop2 hwd hwCh).1, (takeWhile_word_stop2 hwd hwCh).2]
    obtain ⟨d0, ds, rfl⟩ : ∃ d0 ds, d = d0 :: ds := by
      cases d with
      | nil => exact absurd rfl hd
      | cons a b => exact ⟨a, b, rfl⟩
    obtain ⟨w0, ws, rfl⟩ : ∃ w0 ws, w = w0 :: ws := by
      cases w with
      | nil => exact absurd rfl hw
      | cons a b => exact ⟨a, b, rfl⟩
    have hd0 : Char.isDigit d0 = true := hdCh d0 (by simp)
    rcases ds with _ | ⟨d1, ds'⟩
    · simp only [List.cons_append, List.nil_append]
      rw [if_pos hd0]
      rw [stripLit_self_append]
      simp [hc]
    · simp only [List.cons_append, List.nil_append]
      rw [if_pos hd0]
      rw [stripLit_self_append]
      simp [hc]

theorem ext2fsMatchesList_iff {s : List Char} :
    ext2fsMatchesList s = true ↔ ∃ pre rest, s = pre ++ rest ∧ Ext2fsAtProp rest := by
  induction s with
  | nil =>
    rw [ext2fsMatchesList, ext2fsMatchAt_iff]
    constructor
    · intro h
      exact ⟨[], [], rfl, h⟩
    · rintro ⟨pre, rest, hsplit, hprop⟩
      have hr : rest = [] := (List.append_eq_nil.mp hsplit.symm).2
      rw [← hr]
      exact hprop
  | cons a as ih =>
    rw [ext2fsMatchesList, Bool.or_eq_true, ih, ext2fsMatchAt_iff]
    constructor
    · rintro (h | ⟨pre, rest, hsplit, hp⟩)
      · exact ⟨[], a :: as, rfl, h⟩
      · exact ⟨a :: pre, rest, by rw [List.cons_append, hsplit], hp⟩
    · rintro ⟨pre, rest, hsplit, hp⟩
      cases pre with
      | nil =>
        left
        rw [List.nil_append] at hsplit
        rw [hsplit]
        exact hp
      | cons b pre' =>
        right
        rw [List.cons_append, List.cons.injEq] at hsplit
        exact ⟨pre', rest, hsplit.2, hp⟩

theorem ext2fsSuccessMatch_iff {s : String} :
    ext2fsSuccessMatch s = true ↔
      ∃ pre rest, s.toList = pre ++ rest ∧ Ext2fsAtProp rest :=
  ext2fsMatchesList_iff

/- ### Lemmas about the differ -/

theorem vctLoop_refl (l : List VolumeClaimTemplate) :
    ∀ (i : Nat) (st : DiffState), vctLoop i l l st = some st := by
  induction l with
  | nil => intro i st; rfl
  | cons v ls ih => intro i st; simp [vctLoop, ih]

theorem lookupQuantity_self {m : List (String × Int)} {k : String} {v : Int}
    (hnd : keysNodup m) (hmem : (k, v) ∈ m) : lookupQuantity m k = v := by
  induction m with
  | nil => simp at hmem
  | cons p rest ih =>
    obtain ⟨k0, v0⟩ := p
    rw [keysNodup, List.map_cons, List.nodup_cons] at hnd
    rcases List.mem_cons.mp hmem with h1 | h2
    · rw [Prod.mk.injEq] at h1
      obtain ⟨hk, hv⟩ := h1
      subst hk; subst hv
      simp [lookupQuantity, List.find?_cons_of_pos]
    · have hk0 : k0 ≠ k := by
        intro he
        apply hnd.1
        rw [he]
        exact List.mem_map.mpr ⟨(k, v), h2, rfl⟩
      have hfind : ((k0, v0) :: rest).find? (fun p => p.1 == k) = rest.find? (fun p => p.1 == k) :=
        List.find?_cons_of_neg _ (by simp [hk0])
      simpa [lookupQuantity, hfind] using ih hnd.2 h2

theorem compareResoucesAssumeFirstNotNil_refl (r : ResourceRequirements)
    (h1 : keysNodup r.requests) (h2 : keysNodup r.limits) :
    compareResoucesAssumeFirstNotNil r (some r) = true := by
  simp only [compareResoucesAssumeFirstNotNil]
  by_cases he : r.requests.isEmpty
  · simp [he]
  · rw [if_neg he]
    rw [Bool.and_eq_true, List.all_eq_true, List.all_eq_true]
    constructor
    · rintro ⟨k, v⟩ hm
      simp [lookupQuantity_self h1 hm]
    · rintro ⟨k, v⟩ hm
      simp [lookupQuantity_self h2 hm]

theorem compareResources_refl (r : ResourceRequirements)
    (h1 : keysNodup r.requests) (h2 : keysNodup r.limits) :
    compareResources (some r) (some r) = true := by
  simp [compareResources, compareResoucesAssumeFirstNotNil_refl r h1 h2]

/- ### Claim theorems -/

/-- C5: if the live workload set has zero containers, the comparison
returns `match = false`, `needsReplace = false`, `needsRollingUpdate =
false` and an empty reason list, regardless of any other differences
between the two objects. -/
theorem compareStatefulSet_zero_containers (live desired : StatefulSetSpec)
    (h : live.containers = []) :
    compareStatefulSetWith live desired =
      some { matchFlag := false, replace := false, rollingUpdate := false, reasons := [] } := by
  unfold compareStatefulSetWith
  simp [h]

/-- Witness for C5 at a concrete pair that also differs in replica count
and container count. -/
theorem compareStatefulSet_zero_containers_witness :
    compareStatefulSetWith ⟨3, "op", 30, [], [], [], []⟩
      ⟨5, "op2", 20, [("app", "pg")], [], [⟨"img", [], ⟨[], []⟩, []⟩], []⟩ =
      some { matchFlag := false, replace := false, rollingUpdate := false, reasons := [] } :=
  compareStatefulSet_zero_containers _ _ rfl

/-- C9: the pod-event queue key joins the pod identity's string form and
the resource version with a single dash, and is not injective: these two
events have distinct (pod identity, resource version) pairs but the same
key, so they collapse to one queued entry. -/
theorem podEventQueueKey_not_injective :
    podEventQueueKey ⟨⟨"default", "pg-1"⟩, "2", .add⟩ =
      podEventQueueKey ⟨⟨"default", "pg"⟩, "1-2", .add⟩ ∧
    (((⟨"default", "pg-1"⟩ : NamespacedName), "2") ≠
      ((⟨"default", "pg"⟩ : NamespacedName), "1-2")) :=
  ⟨rfl, by decide⟩

/-- C10: two non-nil resource-requirement sets whose `Requests` maps are
both empty compare equal, whatever their `Limits` maps contain — the
limits loops are only reached when the other side's requests are
non-empty. -/
theorem compareResources_empty_requests_ignores_limits
    (a b : ResourceRequirements) (ha : a.requests = []) (hb : b.requests = []) :
    compareResources (some a) (some b) = true := by
  simp [compareResources, compareResoucesAssumeFirstNotNil, ha, hb]

/-- Witness for C10: the limits maps differ, yet the comparison reports
equality. -/
theorem compareResources_empty_requests_ignores_limits_witness :
    (([("cpu", (1 : Int))] : List (String × Int)) ≠ [("cpu", 2)]) ∧
    compareResources (some ⟨[], [("cpu", 1)]⟩) (some ⟨[], [("cpu", 2)]⟩) = true :=
  ⟨by decide, compareResources_empty_requests_ignores_limits _ _ rfl rfl⟩

/-- C1: evaluation of `Create` at the two failing inputs.  A failure of
`initDbConn` alone (reachable cluster, database access enabled) makes
`Create` return a non-nil error, yet the persisted status is `Running`,
because the error is assigned to a fresh `err` scoped to the `if`
statement and the deferred status writer still sees a nil function-scope
`err`; a failure of `ListResources` alone makes `Create` return nil, yet
the persisted status is `AddFailed`.  Both contradict the claim that the
returned error is non-nil exactly when the persisted status is
`AddFailed`. -/
theorem create_initDbConn_shadow_and_listResources :
    createRun false false
      { createEndpointErr := none, createServiceErr := none, initUsersErr := none,
        applySecretsErr := none, createStatefulSetErr := none, waitPodsReadyErr := none,
        initDbConnErr := some "connection refused", createUsersErr := none,
        listResourcesErr := none } =
      (some "could not init db connection: connection refused", .Running) ∧
    createRun false false
      { createEndpointErr := none, createServiceErr := none, initUsersErr := none,
        applySecretsErr := none, createStatefulSetErr := none, waitPodsReadyErr := none,
        initDbConnErr := none, createUsersErr := none,
        listResourcesErr := some "api error" } =
      (none, .AddFailed) :=
  ⟨rfl, rfl⟩

/-- C2 counterexample: a run whose only failure is the volume update
returns a non-nil error but leaves the persisted status at `Updating`,
not `UpdateFailed`, refuting the claim that any step failure sets
`UpdateFailed` before returning. -/
theorem update_volume_failure_leaves_updating :
    updateRun
      { serviceMatch := true, updateServiceErr := none, volumeMatch := false,
        updateVolumesErr := some "ebs failure", genStatefulSetErr := none, cmpMatch := true,
        cmpReplace := false, cmpRollingUpdate := false, updateStatefulSetErr := none,
        replaceStatefulSetErr := none, recreatePodsErr := none } =
      (some "Could not update volumes: ebs failure", .Updating) ∧
    (PostgresStatus.Updating ≠ PostgresStatus.UpdateFailed) :=
  ⟨rfl, by decide⟩

/-- C4 counterexample: the claim that the differ's match flag equals the
negation of (needsRollingUpdate or needsReplace) whenever the live object
has a container is false — a pair differing only in replica count yields
`match = false` with both escalation flags false. -/
theorem compareStatefulSet_match_flag_not_negation_cex :
    ¬ (∀ (live desired : StatefulSetSpec) (r : compareStatefulsetResult),
        compareStatefulSetWith live desired = some r →
        live.containers ≠ [] →
        r.matchFlag = (!(r.rollingUpdate || r.replace))) := by
  intro h
  have hc := h ⟨1, "op", 30, [], [], [⟨"img", [], ⟨[], []⟩, []⟩], []⟩
               ⟨2, "op", 30, [], [], [⟨"img", [], ⟨[], []⟩, []⟩], []⟩
               { matchFlag := false, replace := false, rollingUpdate := false,
                 reasons := ["new statefulset's number of replicas doesn't match the current one"] }
               (by decide) (by decide)
  simp at hc

/-- C8 counterexample: a pair identical except in the primary container's
resource limits (with both requests maps empty) is reported as a full
match — `needsRollingUpdate` stays false, refuting the claim for the
resource requests/limits field. -/
theorem primary_container_limits_only_cex :
    compareStatefulSetWith
      ⟨1, "op", 30, [], [], [⟨"img", [], ⟨[], [("cpu", 1)]⟩, []⟩], []⟩
      ⟨1, "op", 30, [], [], [⟨"img", [], ⟨[], [("cpu", 2)]⟩, []⟩], []⟩ =
      some { matchFlag := true, replace := false, rollingUpdate := false, reasons := [] } ∧
    ((⟨"img", [], ⟨[], [("cpu", 1)]⟩, []⟩ : Container) ≠ ⟨"img", [], ⟨[], [("cpu", 2)]⟩, []⟩) :=
  ⟨by decide, by decide⟩

/-- C4 amended: for every produced comparison of a live object with at
least one container, the match flag is true exactly when the replica
counts agree and both escalation flags are false — a replica-count
mismatch clears `match` without setting either flag, so `match` is not
simply the negation of (needsRollingUpdate or needsReplace). -/
theorem compareStatefulSet_match_characterization (live desired : StatefulSetSpec)
    (r : compareStatefulsetResult)
    (hr : compareStatefulSetWith live desired = some r)
    (hc : live.containers ≠ []) :
    r.matchFlag = true ↔
      (live.replicas = desired.replicas ∧ r.rollingUpdate = false ∧ r.replace = false) := by
  have hlen : ¬ live.containers.length = 0 := by
    simpa [List.length_eq_zero] using hc
  unfold compareStatefulSetWith at hr
  rw [if_neg hlen] at hr
  split at hr
  · exact absurd hr (by simp)
  · rename_i st hmc
    rw [Option.some.injEq] at hr
    subst hr
    by_cases h1 : live.replicas = desired.replicas <;>
      by_cases h2 : st.roll = true <;>
        by_cases h3 : st.replace = true <;>
          simp [h1, h2, h3]

/-- Witness for C4's amended claim, applied to a pair differing only in
replica count. -/
theorem compareStatefulSet_match_characterization_witness :
    ((false : Bool) = true ↔ ((1 : Int) = 2 ∧ (false : Bool) = false ∧ (false : Bool) = false)) := by
  have hch := compareStatefulSet_match_characterization
    ⟨1, "op", 30, [], [], [⟨"img", [], ⟨[], []⟩, []⟩], []⟩
    ⟨2, "op", 30, [], [], [⟨"img", [], ⟨[], []⟩, []⟩], []⟩
    { matchFlag := false, replace := false, rollingUpdate := false,
      reasons := ["new statefulset's number of replicas doesn't match the current one"] }
    (by decide) (by decide)
  exact hch

/-- C8 amended: a pair of workload sets identical except in the primary
container — with the container resources equal (well-formed as maps) and
some other primary-container field (image, ports or environment)
different — yields `needsRollingUpdate = true`, `needsReplace = false`
and `match = false`.  (A difference confined to resource limits with both
requests maps empty is not detected; see the counterexample.) -/
theorem primary_container_field_rolling_update
    (s : StatefulSetSpec) (c1 c2 : Container) (rest : List Container)
    (hres : c1.resources = c2.resources)
    (hnd1 : keysNodup c1.resources.requests) (hnd2 : keysNodup c1.resources.limits)
    (hne : c1 ≠ c2) :
    ∃ rs, compareStatefulSetWith
        { s with containers := c1 :: rest }
        { s with containers := c2 :: rest } =
      some { matchFlag := false, replace := false, rollingUpdate := true, reasons := rs } := by
  have hcr : compareResources (some c1.resources) (some c2.resources) = true := by
    rw [hres] at hnd1 hnd2 ⊢
    exact compareResources_refl _ hnd1 hnd2
  have hone : c1.image ≠ c2.image ∨ c1.ports ≠ c2.ports ∨ c1.env ≠ c2.env := by
    by_contra hno
    push_neg at hno
    apply hne
    obtain ⟨i1, p1, r1, e1⟩ := c1
    obtain ⟨i2, p2, r2, e2⟩ := c2
    simp_all
  by_cases hI : c1.image = c2.image <;>
    by_cases hP : c1.ports = c2.ports <;>
      by_cases hE : c1.env = c2.env
  · simp [hI, hP, hE] at hone
  all_goals
    exact ⟨_, by (simp [compareStatefulSetWith, mainChecks, vctLoop_refl, hI, hP, hE, hcr]; rfl)⟩

/-- Witness for C8's amended claim at a pair differing only in the
primary-container image. -/
theorem primary_container_field_rolling_update_witness :
    ∃ rs, compareStatefulSetWith
        ⟨1, "op", 30, [], [], [⟨"img1", [], ⟨[("cpu", 1)], []⟩, []⟩], []⟩
        ⟨1, "op", 30, [], [], [⟨"img2", [], ⟨[("cpu", 1)], []⟩, []⟩], []⟩ =
      some { matchFlag := false, replace := false, rollingUpdate := true, reasons := rs } :=
  primary_container_field_rolling_update
    ⟨1, "op", 30, [], [], [], []⟩
    ⟨"img1", [], ⟨[("cpu", 1)], []⟩, []⟩
    ⟨"img2", [], ⟨[("cpu", 1)], []⟩, []⟩
    [] rfl (by simp [keysNodup]) (by simp [keysNodup]) (by decide)

/-- C3 counterexample: one infrastructure role and one robot role with the
same (valid) username — the final map holds the robot role, freshly
generated password and all, not the infrastructure role, because robot
users are inserted after infrastructure roles and later insertions
overwrite earlier ones. -/
theorem robot_overwrites_infrastructure_cex :
    initUsersPg (fun fl => .ok fl) (fun _ => "generated0")
        [("foo", { name := "foo", password := "infrasecret", flags := [], memberOf := [] })]
        [("foo", [])] "admins" (.ok []) =
      .ok [("foo", { name := "foo", password := "generated0", flags := [], memberOf := [] })] ∧
    ({ name := "foo", password := "generated0", flags := [], memberOf := [] } : PgUser) ≠
      { name := "foo", password := "infrasecret", flags := [], memberOf := [] } :=
  ⟨rfl, by decide⟩

/-- C3 amended: with one valid infrastructure role and one valid robot
role sharing a username, the build succeeds and the final map has exactly
one entry for that username, equal to the **robot** role (name, freshly
generated password, normalized robot flags, no memberships) — the robot
category is inserted after the infrastructure category and overwrites
it. -/
theorem initUsers_same_username_robot_wins
    (normalizeUserFlags : List String → Except String (List String))
    (randomPassword : String → String) (u : String) (infraData : PgUser)
    (robotFlags fl1 fl2 : List String) (pamRoleName : String)
    (hu : isValidUsername u = true)
    (hn1 : normalizeUserFlags infraData.flags = .ok fl1)
    (hn2 : normalizeUserFlags robotFlags = .ok fl2) :
    initUsersPg normalizeUserFlags randomPassword
        [(u, infraData)] [(u, robotFlags)] pamRoleName (.ok []) =
      .ok [(u, { name := u, password := randomPassword u, flags := fl2, memberOf := [] })] := by
  simp [initUsersPg, initInfrastructureRoles, initRobotUsers, initHumanUsers,
        mapInsert, hu, hn1, hn2]

/-- Witness for C3's amended claim at concrete roles. -/
theorem initUsers_same_username_robot_wins_witness :
    initUsersPg (fun fl => .ok fl) (fun _ => "pw1")
        [("bot", { name := "bot", password := "cfgpw", flags := ["createdb"], memberOf := ["grp"] })]
        [("bot", ["login"])] "admins" (.ok []) =
      .ok [("bot", { name := "bot", password := "pw1", flags := ["login"], memberOf := [] })] :=
  initUsers_same_username_robot_wins (fun fl => .ok fl) (fun _ => "pw1") "bot"
    { name := "bot", password := "cfgpw", flags := ["createdb"], memberOf := ["grp"] }
    ["login"] ["createdb"] ["login"] "admins" (by decide) rfl rfl

/-- C6: the per-volume contract of the volume-resize orchestrator.  The
single-volume loop is exactly one `processPV` step; a volume whose current
capacity in whole gibibytes equals the desired size is skipped with no
collaborator call and an unchanged record; for a differing volume the EBS
block-device resize is the first call, the remote filesystem resize
happens only after the block resize succeeded, the record-update call
happens only after both resizes succeeded, and the persisted record
changes only to the new quantity and only when all three calls
succeed. -/
theorem updateVolumes_per_volume_contract (o : VolOracles) (nb : Int)
    (pv : PersistentVolume) :
    (updateVolumesLoop o nb [pv] =
      ((processPV o nb pv).1, [(processPV o nb pv).2.1], (processPV o nb pv).2.2)) ∧
    (pv.capacityBytes.tdiv 1073741824 = nb.tdiv 1073741824 →
      processPV o nb pv = ([], pv, none)) ∧
    (pv.capacityBytes.tdiv 1073741824 ≠ nb.tdiv 1073741824 →
      (∀ vid, getAWSVolumeId pv = .ok vid →
        (processPV o nb pv).1.head? = some (.resizeEBS vid (nb.tdiv 1073741824))) ∧
      (∀ pod, VolEvent.execFS pod ∈ (processPV o nb pv).1 →
        ∃ vid, getAWSVolumeId pv = .ok vid ∧
          o.resizeEBSResult vid (nb.tdiv 1073741824) = none ∧
          (processPV o nb pv).1.take 2 =
            [.resizeEBS vid (nb.tdiv 1073741824), .execFS pod]) ∧
      (∀ nm cap, VolEvent.updatePV nm cap ∈ (processPV o nb pv).1 →
        ∃ vid, getAWSVolumeId pv = .ok vid ∧
          o.resizeEBSResult vid (nb.tdiv 1073741824) = none ∧
          resizeVolumeFS o.execCommand (getPodNameFromPersistentVolume pv) = none ∧
          (processPV o nb pv).1 =
            [.resizeEBS vid (nb.tdiv 1073741824),
             .execFS (getPodNameFromPersistentVolume pv), .updatePV pv.name nb]) ∧
      ((processPV o nb pv).2.1 ≠ pv →
        (processPV o nb pv).2.1 = { pv with capacityBytes := nb } ∧
        (processPV o nb pv).2.2 = none ∧
        VolEvent.updatePV pv.name nb ∈ (processPV o nb pv).1)) := by
  refine ⟨?_, ?_, ?_⟩
  · rcases h : processPV o nb pv with ⟨evs, pv2, res⟩
    cases res <;> simp [updateVolumesLoop, h]
  · intro h
    simp [processPV, h]
  · intro hne
    rcases hv : getAWSVolumeId pv with e | vid
    · simp [processPV, hne, hv]
    · rcases he : o.resizeEBSResult vid (nb.tdiv 1073741824) with _ | e2
      · rcases hf : resizeVolumeFS o.execCommand (getPodNameFromPersistentVolume pv) with _ | e3
        · rcases hu : o.updatePVResult { pv with capacityBytes := nb } with _ | e4
          · simp [processPV, hne, hv, he, hf, hu]
          · simp [processPV, hne, hv, he, hf, hu]
        · simp [processPV, hne, hv, he, hf]
      · simp [processPV, hne, hv, he]

/-- Witness for C6: an equal-size volume is skipped outright, and for a
10 GiB → 20 GiB resize the first collaborator call is the EBS block-device
resize. -/
theorem updateVolumes_per_volume_contract_witness :
    processPV ⟨fun _ _ => none, fun _ => ("Nothing to do", none), fun _ => none⟩
        10737418240 ⟨"pv1", 10737418240, "aws://eu-central-1b/vol-abc", "default", "pgdata-c-0"⟩ =
      ([], ⟨"pv1", 10737418240, "aws://eu-central-1b/vol-abc", "default", "pgdata-c-0"⟩, none) ∧
    (processPV ⟨fun _ _ => none, fun _ => ("Nothing to do", none), fun _ => none⟩
        21474836480 ⟨"pv1", 10737418240, "aws://eu-central-1b/vol-abc", "default", "pgdata-c-0"⟩).1.head? =
      some (VolEvent.resizeEBS "vol-abc" 20) :=
  ⟨(updateVolumes_per_volume_contract _ _ _).2.1 (by decide),
   ((updateVolumes_per_volume_contract _ _ _).2.2 (by decide)).1 "vol-abc" rfl⟩

/-- C2 amended: full status/error characterization of `Update`.  Success
is equivalent to persisting `Running`; a service-update failure persists
`UpdateFailed`; volume-update and statefulset-generation failures return
the error with no status write, leaving `Updating`; statefulset update,
statefulset replace and pod-recreation failures persist `UpdateFailed`. -/
theorem update_status_characterization (s : UpdateSteps) :
    ((updateRun s).1 = none ↔ (updateRun s).2 = .Running) ∧
    (∀ e, s.serviceMatch = false → s.updateServiceErr = some e →
      updateRun s = (some ("could not update service: " ++ e), .UpdateFailed)) ∧
    (∀ e, (s.serviceMatch = true ∨ s.updateServiceErr = none) →
      s.volumeMatch = false → s.updateVolumesErr = some e →
      updateRun s = (some ("Could not update volumes: " ++ e), .Updating)) ∧
    (∀ e, (s.serviceMatch = true ∨ s.updateServiceErr = none) →
      (s.volumeMatch = true ∨ s.updateVolumesErr = none) →
      s.genStatefulSetErr = some e →
      updateRun s = (some ("could not generate statefulset: " ++ e), .Updating)) ∧
    (∀ e, (s.serviceMatch = true ∨ s.updateServiceErr = none) →
      (s.volumeMatch = true ∨ s.updateVolumesErr = none) →
      s.genStatefulSetErr = none → s.cmpMatch = false → s.cmpReplace = false →
      s.updateStatefulSetErr = some e →
      updateRun s = (some ("could not upate statefulset: " ++ e), .UpdateFailed)) ∧
    (∀ e, (s.serviceMatch = true ∨ s.updateServiceErr = none) →
      (s.volumeMatch = true ∨ s.updateVolumesErr = none) →
      s.genStatefulSetErr = none → s.cmpMatch = false → s.cmpReplace = true →
      s.replaceStatefulSetErr = some e →
      updateRun s = (some ("could not replace statefulset: " ++ e), .UpdateFailed)) ∧
    (∀ e, (s.serviceMatch = true ∨ s.updateServiceErr = none) →
      (s.volumeMatch = true ∨ s.updateVolumesErr = none) →
      s.genStatefulSetErr = none →
      (s.cmpMatch = true ∨ (s.cmpReplace = false ∧ s.updateStatefulSetErr = none) ∨
        (s.cmpReplace = true ∧ s.replaceStatefulSetErr = none)) →
      s.cmpRollingUpdate = true → s.recreatePodsErr = some e →
      updateRun s = (some ("could not recreate pods: " ++ e), .UpdateFailed)) := by
  refine ⟨?_, ?_, ?_, ?_, ?_, ?_, ?_⟩
  · unfold updateRun
    repeat' split
    all_goals simp
  · intro e hm he
    simp [updateRun, hm, he]
  · intro e hsvc hv hve
    rcases hsvc with h | h <;> simp [updateRun, h, hv, hve, *]
  · intro e hsvc hvol hg
    rcases hsvc with h1 | h1 <;> rcases hvol with h2 | h2 <;>
      simp [updateRun, *]
  · intro e hsvc hvol hg hm hr hu
    rcases hsvc with h1 | h1 <;> rcases hvol with h2 | h2 <;>
      simp [updateRun, *]
  · intro e hsvc hvol hg hm hr hu
    rcases hsvc with h1 | h1 <;> rcases hvol with h2 | h2 <;>
      simp [updateRun, *]
  · intro e hsvc hvol hg hok hroll hrec
    rcases hsvc with h1 | h1 <;> rcases hvol with h2 | h2 <;>
      rcases hok with h3 | ⟨h3, h4⟩ | ⟨h3, h4⟩ <;>
        simp [updateRun, *]

/-- Witness for C2's amended claim: a service-update failure persists
`UpdateFailed`, and a fully matching run returns nil exactly as it
persists `Running`. -/
theorem update_status_characterization_witness :
    updateRun
      { serviceMatch := false, updateServiceErr := some "boom", volumeMatch := true,
        updateVolumesErr := none, genStatefulSetErr := none, cmpMatch := true,
        cmpReplace := false, cmpRollingUpdate := false, updateStatefulSetErr := none,
        replaceStatefulSetErr := none, recreatePodsErr := none } =
      (some "could not update service: boom", .UpdateFailed) ∧
    ((updateRun
      { serviceMatch := false, updateServiceErr := none, volumeMatch := false,
        updateVolumesErr := none, genStatefulSetErr := none, cmpMatch := false,
        cmpReplace := false, cmpRollingUpdate := true, updateStatefulSetErr := none,
        replaceStatefulSetErr := none, recreatePodsErr := none }).1 = none ↔
    (updateRun
      { serviceMatch := false, updateServiceErr := none, volumeMatch := false,
        updateVolumesErr := none, genStatefulSetErr := none, cmpMatch := false,
        cmpReplace := false, cmpRollingUpdate := true, updateStatefulSetErr := none,
        replaceStatefulSetErr := none, recreatePodsErr := none }).2 = .Running) :=
  ⟨(update_status_characterization _).2.1 "boom" rfl rfl,
   (update_status_characterization _).1⟩

/-- C7: the filesystem-resize step returns no error exactly when the
remote command itself succeeded and its output either contains
"Nothing to do", or contains "on-line resizing required" and matches
`ext2fsSuccessRegexp` (the language `Ext2fsAtProp` at some position);
every other output — including empty output — yields the
"unrecognized output" error. -/
theorem resizeVolumeFS_success_characterization
    (execCommand : NamespacedName → String × Option String) (podName : NamespacedName) :
    (resizeVolumeFS execCommand podName = none ↔
      ((execCommand podName).2 = none ∧
        ((∃ pre post, (execCommand podName).1.toList =
            pre ++ "Nothing to do".toList ++ post) ∨
          ((∃ pre post, (execCommand podName).1.toList =
              pre ++ "on-line resizing required".toList ++ post) ∧
            ∃ pre rest, (execCommand podName).1.toList = pre ++ rest ∧ Ext2fsAtProp rest)))) ∧
    ((execCommand podName).2 = none →
      (containsStr (execCommand podName).1 "Nothing to do" ||
        (containsStr (execCommand podName).1 "on-line resizing required" &&
          ext2fsSuccessMatch (execCommand podName).1)) = false →
      resizeVolumeFS execCommand podName =
        some ("unrecognized output: " ++ (execCommand podName).1 ++ ", assuming error")) := by
  constructor
  · rcases he : (execCommand podName).2 with _ | e
    · simp only [resizeVolumeFS, he]
      have hif : ∀ (b : Bool) (m : String),
          ((if b then none else some m) = (none : Option String)) ↔ b = true := by
        intro b m
        cases b <;> simp
      rw [hif]
      simp only [Bool.or_eq_true, Bool.and_eq_true, containsStr_iff, ext2fsSuccessMatch_iff]
      simp
    · simp [resizeVolumeFS, he]
  · intro he hcond
    simp [resizeVolumeFS, he, hcond]

/-- Witness for C7: an empty remote output (with the command itself
succeeding) is rejected with the unrecognized-output error. -/
theorem resizeVolumeFS_success_characterization_witness :
    resizeVolumeFS (fun _ => ("", none)) ⟨"default", "pg-0"⟩ =
      some "unrecognized output: , assuming error" :=
  (resizeVolumeFS_success_characterization (fun _ => ("", none)) ⟨"default", "pg-0"⟩).2
    rfl (by decide)

end PgCluster
